import Mathlib

/-!
Verification of the PDFQuestionExtractor pipeline.

This file is a shallow embedding of the two Python source files
`pdf_question_extractor.py` and `app.py`:

* `Question`, `extract_text_from_pdf`, `parse_questions_with_ai`,
  `upload_to_airtable` and `process_pdf` embed the class
  `PDFQuestionExtractor`;
* `upload_handler` embeds the Flask route `POST /upload` together with the
  generic JSON error handler.

External collaborators (the PDF text layer, the OCR engine, the
language-model completion endpoint, the record-storage API and the JSON
decoder of the standard library) are parameters of the embedding, gathered
in an `Env`: a value of `Env` fixes the behaviour of every external service
for one run.  Exceptions thrown and caught in the Python code are embedded
as `Except` / `Option` values; an exception that the Python code does not
catch is a distinguished result of the embedding (see `upload_handler`).
-/

/-- One structured question, mirroring the `@dataclass Question` of the
source: `question_text` is required, the four other fields default to `""`. -/
structure Question where
  question_text : String
  answer : String
  topic : String
  difficulty : String
  question_type : String
deriving DecidableEq

/-- The result of `extract_text_from_pdf`, instrumented with a trace flag:
`text` is the returned string, `ocrInvoked` records whether the OCR fallback
branch ran (including the case in which rasterisation raised). -/
structure ExtractResult where
  text : String
  ocrInvoked : Bool
deriving DecidableEq

/-- Python's whitespace class, as used by `str.strip()` with no argument. -/
def isPySpace (c : Char) : Bool :=
  c = ' ' || c = '\t' || c = '\n' || c = '\r' || c = '\x0b' || c = '\x0c'

/-- `s.strip()`: the string with leading and trailing whitespace removed,
computed on the character list of the string. -/
def pyStrip (s : String) : String :=
  ⟨((s.data.dropWhile isPySpace).reverse.dropWhile isPySpace).reverse⟩

/-- The native text layer pass of `extract_text_from_pdf`: each page yields
`page.extract_text()`, embedded as `Option String` (`none` for an absent
text). A falsy page text (`none` or `""`) is skipped; a truthy one is
appended followed by a newline. -/
def nativeText (pages : List (Option String)) : String :=
  pages.foldl
    (fun acc p =>
      match p with
      | none => acc
      | some s => if s = "" then acc else acc ++ s ++ "\n")
    ""

/-- `extract_text_from_pdf`: native text layer first; if the stripped result
is empty, fall back to OCR.  `ocr` is the external OCR run: `Except.ok` gives
the per-image OCR strings, `Except.error` embeds an exception raised by
`pdf2image.convert_from_path` or `pytesseract`; the Python code catches it,
prints it, and leaves `text` unchanged. -/
def extract_text_from_pdf (pages : List (Option String))
    (ocr : Except String (List String)) : ExtractResult :=
  let text := nativeText pages
  if pyStrip text = "" then
    match ocr with
    | Except.ok imgs => ⟨imgs.foldl (fun acc s => acc ++ s ++ "\n") "", true⟩
    | Except.error _ => ⟨text, true⟩
  else
    ⟨text, false⟩

/-- One element of the JSON array decoded from the model response: a
string-keyed object over the field names of `Question`, each key possibly
absent. -/
structure QuestionItem where
  question_text : Option String
  answer : Option String
  topic : Option String
  difficulty : Option String
  question_type : Option String
deriving DecidableEq

/-- `Question(**q)` for one decoded item: raises `TypeError` (`none`) when
the required `question_text` key is absent; the other fields take their
dataclass defaults. -/
def mkQuestion (d : QuestionItem) : Option Question :=
  match d.question_text with
  | none => none
  | some t =>
      some ⟨t, d.answer.getD "", d.topic.getD "", d.difficulty.getD "",
        d.question_type.getD ""⟩

/-- The list comprehension `[Question(**q) for q in questions_data]`: the
first item that raises aborts the whole comprehension (`none`). -/
def questionsFromItems : List QuestionItem → Option (List Question)
  | [] => some []
  | d :: ds =>
      match mkQuestion d with
      | none => none
      | some q =>
          match questionsFromItems ds with
          | none => none
          | some qs => some (q :: qs)

/-- `parse_questions_with_ai`.  `chat` embeds the completion call: applied to
the user message, it returns the response content, or `Except.error` for a
network failure or any exception raised before `json.loads`.  `jsonParse`
embeds `json.loads` on the response content: `none` embeds a raise (invalid
JSON) or a shape other than an array of question objects.  Any of these
exceptions, and a `TypeError` from `Question(**q)`, are caught by the
`except` clause, which returns the empty list. -/
def parse_questions_with_ai (chat : String → Except Unit String)
    (jsonParse : String → Option (List QuestionItem)) (text : String) :
    List Question :=
  match chat ("Extract math questions from this text:\n\n" ++ text) with
  | Except.error _ => []
  | Except.ok content =>
      match jsonParse content with
      | none => []
      | some items => (questionsFromItems items).getD []

/-- One record of the Airtable payload, as built in `upload_to_airtable`:
the five question fields plus the two constant fields. -/
structure AirtableRecord where
  questionText : String
  answer : String
  topic : String
  difficulty : String
  questionType : String
  source : String
  created : String
deriving DecidableEq

/-- The `record` dict built for one question. -/
def mkRecord (q : Question) : AirtableRecord :=
  ⟨q.question_text, q.answer, q.topic, q.difficulty, q.question_type,
    "PDF Upload", "2024-01-01"⟩

/-- The storage API's response to one batch POST: `ok n` is a 2xx response
whose JSON body carries `n` records; `err` embeds a
`requests.exceptions.RequestException` (transport error, or the
`raise_for_status` of a non-2xx response), which the loop catches and
skips. -/
inductive StoreResp where
  | err : StoreResp
  | ok : Nat → StoreResp
deriving DecidableEq

/-- `len(result.get('records', []))` for one response; a failed batch
contributes nothing. -/
def respCount : StoreResp → Nat
  | StoreResp.err => 0
  | StoreResp.ok n => n

/-- Number of loop iterations of `for i in range(0, len(questions), 10)`. -/
def numBatches (qs : List Question) : Nat := (qs.length + 9) / 10

/-- The slice `questions[i:i + batch_size]` for the batch of ordinal `k`
(loop index `i = 10 * k`). -/
def batchAt (qs : List Question) (k : Nat) : List Question :=
  (qs.drop (10 * k)).take 10

/-- The `records` payload built for batch `k`. -/
def batchRecords (qs : List Question) (k : Nat) : List AirtableRecord :=
  (batchAt qs k).map mkRecord

/-- The observable outcome of `upload_to_airtable`: the payloads POSTed (one
per batch, in order), the final `total_uploaded` counter, and the returned
value `total_uploaded > 0` (a boolean, per the `-> bool` annotation of the
source). -/
structure UploadOutcome where
  requests : List (List AirtableRecord)
  totalUploaded : Nat
  returns : Bool
deriving DecidableEq

/-- `upload_to_airtable`: chunk into batches of at most 10, POST every batch
(`store k` is the API's response to the `k`-th POST), accumulate the record
counts of the successful responses, and return `total_uploaded > 0`. -/
def upload_to_airtable (store : Nat → StoreResp) (qs : List Question) :
    UploadOutcome :=
  let m := numBatches qs
  let requests := (List.range m).map (batchRecords qs)
  let total := ((List.range m).map (fun k => respCount (store k))).sum
  ⟨requests, total, decide (0 < total)⟩

/-- The dict returned by `process_pdf`: either
`{"success": False, "error": e}` or
`{"success": True, "questions_count": n, "message": m}`. -/
inductive PipelineResult where
  | failure : String → PipelineResult
  | success : Nat → String → PipelineResult
deriving DecidableEq

/-- The behaviour of every external service for one run. -/
structure Env where
  pages : List (Option String)
  ocr : Except String (List String)
  chat : String → Except Unit String
  jsonParse : String → Option (List QuestionItem)
  store : Nat → StoreResp

/-- The observable outcome of `process_pdf`: the returned dict, whether
`parse_questions_with_ai` was called, whether `upload_to_airtable` was
called, and the batch payloads POSTed to the storage API. -/
structure ProcessTrace where
  result : PipelineResult
  aiCalled : Bool
  uploadCalled : Bool
  storeRequests : List (List AirtableRecord)
deriving DecidableEq

/-- `process_pdf`: extract text; empty stripped text short-circuits; then
structure the text into questions; an empty list short-circuits; then upload
and report success or failure from the returned boolean. -/
def process_pdf (env : Env) : ProcessTrace :=
  let ex := extract_text_from_pdf env.pages env.ocr
  let text := ex.text
  if pyStrip text = "" then
    ⟨PipelineResult.failure "No text found in PDF", false, false, []⟩
  else
    let questions := parse_questions_with_ai env.chat env.jsonParse text
    if questions = [] then
      ⟨PipelineResult.failure "No questions found in text", true, false, []⟩
    else
      let u := upload_to_airtable env.store questions
      if u.returns then
        ⟨PipelineResult.success questions.length
            ("Successfully uploaded " ++ toString questions.length ++
              " questions to Airtable"),
          true, true, u.requests⟩
      else
        ⟨PipelineResult.failure "Failed to upload to Airtable", true, true,
          u.requests⟩

/-- The fields stored by `PDFQuestionExtractor.__init__` (the OpenAI client
is retained as the key it was built from). -/
structure PDFQuestionExtractor where
  deepseek_api_key : Option String
  airtable_key : Option String
  airtable_base : Option String
  airtable_table : String
deriving DecidableEq

/-- The keyword arguments supplied at a call of
`PDFQuestionExtractor(...)`: the outer `Option` records whether the keyword
was supplied at all, the inner one its (possibly `None`) value. -/
structure InitArgs where
  deepseek_api_key : Option (Option String)
  airtable_api_key : Option (Option String)
  airtable_base_id : Option (Option String)

/-- Calling the constructor: `__init__` declares three required positional
parameters, so a call that omits any of them raises `TypeError`
(`Except.error`) before the body runs. -/
def PDFQuestionExtractor.construct (a : InitArgs) :
    Except String PDFQuestionExtractor :=
  match a.deepseek_api_key, a.airtable_api_key, a.airtable_base_id with
  | some d, some k, some b => Except.ok ⟨d, k, b, "Questions"⟩
  | _, _, _ =>
      Except.error
        "TypeError: PDFQuestionExtractor() missing required argument: deepseek_api_key"

/-- A `POST /upload` request: the two form fields (absent form fields read
as `None` through `request.form.get`) and the filename of the `pdfFile`
part when one is present. -/
structure UploadRequest where
  airtableKey : Option String
  airtableBase : Option String
  pdfFile : Option String
deriving DecidableEq

/-- The JSON envelope sent back by the route (or by the generic error
handler), with its HTTP status. -/
structure HttpResponse where
  status : Nat
  success : Bool
  message : String
  error : String
deriving DecidableEq

/-- The observable outcome of one `POST /upload`: the response, whether the
uploaded file was saved into `uploads/`, and whether `os.remove` ran on
it. -/
structure HandlerTrace where
  response : HttpResponse
  savedFile : Bool
  removedFile : Bool
deriving DecidableEq

/-- The `upload` route of `app.py`, composed with the generic error handler:
missing or empty `pdfFile` answers 400; otherwise the file is saved and the
extractor is constructed — `app.py` supplies only `airtable_api_key` and
`airtable_base_id`, so the construction raises `TypeError`, which no code in
the route catches: the registered 500 handler turns it into
`{"success": false, "error": str(e)}` with status 500, and the statements
after the construction (processing, `os.remove`, the 200 response) do not
run. -/
def upload_handler (env : Env) (req : UploadRequest) : HandlerTrace :=
  let airtable_key := req.airtableKey
  let airtable_base := req.airtableBase
  match req.pdfFile with
  | none => ⟨⟨400, false, "", "No PDF file uploaded."⟩, false, false⟩
  | some filename =>
    if filename = "" then
      ⟨⟨400, false, "", "No PDF file uploaded."⟩, false, false⟩
    else
      match PDFQuestionExtractor.construct
          ⟨none, some airtable_key, some airtable_base⟩ with
      | Except.error e => ⟨⟨500, false, "", e⟩, true, false⟩
      | Except.ok _ =>
          let r := process_pdf env
          match r.result with
          | PipelineResult.failure err => ⟨⟨200, false, "", err⟩, true, true⟩
          | PipelineResult.success _ msg => ⟨⟨200, true, msg, ""⟩, true, true⟩

/-! ## Claims -/

/-- C3: for every run whose extracted text is empty or whitespace-only,
`process_pdf` returns `{success: false, error: "No text found in PDF"}`,
`parse_questions_with_ai` and `upload_to_airtable` are not invoked, and no
request is POSTed to the storage API. -/
theorem C3_no_text_short_circuits (env : Env)
    (h : pyStrip (extract_text_from_pdf env.pages env.ocr).text = "") :
    (process_pdf env).result = PipelineResult.failure "No text found in PDF" ∧
      (process_pdf env).aiCalled = false ∧
      (process_pdf env).uploadCalled = false ∧
      (process_pdf env).storeRequests = [] := by
  unfold process_pdf
  simp only [h, if_pos rfl]
  exact ⟨rfl, rfl, rfl, rfl⟩

/-- Environment for the C3 witness: a PDF with no pages, whose OCR run also
finds nothing. -/
def envC3 : Env :=
  ⟨[], Except.ok [], fun _ => Except.error (), fun _ => none,
    fun _ => StoreResp.err⟩

/-- Witness for C3 at a concrete run. -/
theorem C3_no_text_short_circuits_witness :
    (process_pdf envC3).result = PipelineResult.failure "No text found in PDF" ∧
      (process_pdf envC3).aiCalled = false ∧
      (process_pdf envC3).uploadCalled = false ∧
      (process_pdf envC3).storeRequests = [] :=
  C3_no_text_short_circuits envC3 (by decide)

/-- C4 counterexample: with no native text and an OCR infrastructure that
raises, `extract_text_from_pdf` returns the plain empty string — no
sentinel prefix, no distinct failure value — and its result is identical to
that of a successful OCR run that found no text, refuting the claim that the
failure is signalled rather than silently returning empty text. -/
theorem C4_counterexample :
    (extract_text_from_pdf [] (Except.error "pdf2image raised")).text = "" ∧
      (extract_text_from_pdf [] (Except.error "pdf2image raised")).text =
        (extract_text_from_pdf [] (Except.ok [])).text := by
  refine ⟨rfl, rfl⟩

/-- C4 amended: when the OCR infrastructure is unavailable or raises, the
exception is caught and logged and `extract_text_from_pdf` returns the
native text unchanged (empty or whitespace-only), carrying no failure
signal. -/
theorem C4_ocr_failure_returns_native_text (pages : List (Option String))
    (e : String) (h : pyStrip (nativeText pages) = "") :
    extract_text_from_pdf pages (Except.error e) =
      ⟨nativeText pages, true⟩ := by
  simp [extract_text_from_pdf, h]

/-- Witness for the amended C4 at a concrete run. -/
theorem C4_ocr_failure_returns_native_text_witness :
    extract_text_from_pdf [some " "] (Except.error "no poppler") =
      ⟨nativeText [some " "], true⟩ :=
  C4_ocr_failure_returns_native_text [some " "] "no poppler" (by decide)

/-- C6 counterexample: a PDF whose single page has native text `" "` has a
non-empty native text layer, yet the extractor runs the OCR fallback and
returns the OCR concatenation rather than the native concatenation,
refuting the claim for non-empty (but whitespace-only) native layers. -/
theorem C6_counterexample :
    nativeText [some " "] ≠ "" ∧
      (extract_text_from_pdf [some " "]
          (Except.ok ["ocr output"])).ocrInvoked = true ∧
      (extract_text_from_pdf [some " "] (Except.ok ["ocr output"])).text ≠
        nativeText [some " "] := by
  refine ⟨by decide, rfl, by decide⟩

/-- C6 amended: for every PDF whose concatenated native page text is
non-whitespace after trimming, the extractor returns that concatenation
(each truthy page text followed by a newline) and the OCR fallback never
runs; the fallback runs exactly when the trimmed concatenation is empty, so
a non-empty but whitespace-only native layer does trigger OCR. -/
theorem C6_native_text_skips_ocr (pages : List (Option String))
    (ocr : Except String (List String))
    (h : pyStrip (nativeText pages) ≠ "") :
    extract_text_from_pdf pages ocr = ⟨nativeText pages, false⟩ := by
  unfold extract_text_from_pdf
  simp only [if_neg h]

/-- Witness for the amended C6 at a concrete run. -/
theorem C6_native_text_skips_ocr_witness :
    extract_text_from_pdf [some "What is 2 + 2?"]
        (Except.error "tesseract missing") =
      ⟨nativeText [some "What is 2 + 2?"], false⟩ :=
  C6_native_text_skips_ocr [some "What is 2 + 2?"]
    (Except.error "tesseract missing") (by decide)

/-- A concrete environment for exercising the HTTP route: a one-page PDF
with native text, a well-behaved model and storage API. -/
def envHttp : Env :=
  ⟨[some "1. Evaluate the integral of x."], Except.ok [],
    fun _ => Except.ok "[]",
    fun _ => some [⟨some "Evaluate the integral of x.", none, none, none, none⟩],
    fun _ => StoreResp.ok 1⟩

/-- C2: `POST /upload` with a file present does not answer 200 with the
pipeline result: `app.py` constructs `PDFQuestionExtractor` without the
required `deepseek_api_key`, the call raises `TypeError`, and the generic
handler answers 500 with `success: false`.  The 400 branch for a missing or
empty-filename `pdfFile` does behave as claimed. -/
theorem C2_upload_route_status :
    (upload_handler envHttp ⟨some "KEY", some "BASE", some "exam.pdf"⟩).response.status
        = 500 ∧
      (upload_handler envHttp
          ⟨some "KEY", some "BASE", some "exam.pdf"⟩).response.success = false ∧
      (upload_handler envHttp ⟨some "KEY", some "BASE", none⟩).response.status
        = 400 ∧
      (upload_handler envHttp ⟨some "KEY", some "BASE", some ""⟩).response.status
        = 400 := by
  refine ⟨rfl, rfl, rfl, rfl⟩

/-- C8: the route saves the uploaded file and then raises `TypeError`
constructing the extractor, before `os.remove(filepath)` is reached: the
temporary file is never removed, on any request that saves a file. -/
theorem C8_temp_file_not_removed :
    (upload_handler envHttp ⟨some "K", some "B", some "questions.pdf"⟩).savedFile
        = true ∧
      (upload_handler envHttp
          ⟨some "K", some "B", some "questions.pdf"⟩).removedFile = false := by
  refine ⟨rfl, rfl⟩

/-- C7: for every run that reaches the structurer and whose model response
content is not valid JSON (`json.loads` raises, embedded as
`jsonParse _ = none`), `parse_questions_with_ai` returns the empty list and
`process_pdf` reports `{success: false, error: "No questions found in
text"}`. -/
theorem C7_invalid_json_reports_no_questions (env : Env) (s : String)
    (htext : pyStrip (extract_text_from_pdf env.pages env.ocr).text ≠ "")
    (hchat : env.chat ("Extract math questions from this text:\n\n" ++
        (extract_text_from_pdf env.pages env.ocr).text) = Except.ok s)
    (hjson : env.jsonParse s = none) :
    parse_questions_with_ai env.chat env.jsonParse
        (extract_text_from_pdf env.pages env.ocr).text = [] ∧
      (process_pdf env).result =
        PipelineResult.failure "No questions found in text" := by
  have hparse : parse_questions_with_ai env.chat env.jsonParse
      (extract_text_from_pdf env.pages env.ocr).text = [] := by
    simp [parse_questions_with_ai, hchat, hjson]
  refine ⟨hparse, ?_⟩
  unfold process_pdf
  simp [htext, hparse]

/-- Environment for the C7 witness: native text present, the model answers
a non-JSON string. -/
def envC7 : Env :=
  ⟨[some "Q1. Differentiate sin x."], Except.error "unused",
    fun _ => Except.ok "I could not find any questions here.",
    fun _ => none, fun _ => StoreResp.err⟩

/-- Witness for C7 at a concrete run. -/
theorem C7_invalid_json_reports_no_questions_witness :
    parse_questions_with_ai envC7.chat envC7.jsonParse
        (extract_text_from_pdf envC7.pages envC7.ocr).text = [] ∧
      (process_pdf envC7).result =
        PipelineResult.failure "No questions found in text" :=
  C7_invalid_json_reports_no_questions envC7
    "I could not find any questions here." (by decide) rfl rfl

/-! ## Helper lemmas about the upload loop -/

/-- The list-fold of the upload loop equals the corresponding finite sum. -/
lemma listSum_eq_finsetSum (f : Nat → Nat) (m : Nat) :
    ((List.range m).map f).sum = ∑ k in Finset.range m, f k := by
  induction m with
  | zero => simp
  | succ n ih =>
      rw [List.range_succ, List.map_append, List.sum_append,
        Finset.sum_range_succ, ih]
      simp

/-- The size of the `k`-th batch payload. -/
lemma batchRecords_length (qs : List Question) (k : Nat) :
    (batchRecords qs k).length = min 10 (qs.length - 10 * k) := by
  simp [batchRecords, batchAt]

/-- The batch sizes of the upload loop sum to the number of questions. -/
lemma sum_min_batch_sizes (n : Nat) :
    (∑ k in Finset.range ((n + 9) / 10), min 10 (n - 10 * k)) = n := by
  induction n using Nat.strong_induction_on with
  | _ n ih =>
    by_cases h10 : n ≤ 10
    · by_cases h0 : n = 0
      · subst h0; simp
      · have hm : (n + 9) / 10 = 1 := by omega
        rw [hm, Finset.sum_range_one]
        omega
    · have hm : (n + 9) / 10 = ((n - 10) + 9) / 10 + 1 := by omega
      have hshift : ∀ k, min 10 (n - 10 * (k + 1)) = min 10 ((n - 10) - 10 * k) := by
        intro k; omega
      rw [hm, Finset.sum_range_succ',
        Finset.sum_congr rfl (fun k _ => hshift k), ih (n - 10) (by omega)]
      omega

/-- A present-but-`None` or absent `question_text` key anywhere in the
decoded array aborts the whole comprehension. -/
lemma questionsFromItems_eq_none (items : List QuestionItem)
    (d : QuestionItem) (hd : d ∈ items) (hnone : mkQuestion d = none) :
    questionsFromItems items = none := by
  induction items with
  | nil => cases hd
  | cons a as ih =>
      rcases List.mem_cons.mp hd with rfl | hmem
      · unfold questionsFromItems
        rw [hnone]
      · unfold questionsFromItems
        cases h : mkQuestion a with
        | none => rfl
        | some q => rw [ih hmem]

/-- C5: for every run that reaches the uploader and in which the storage
API rejects every batch (transport error or non-2xx, all caught by the
loop), `process_pdf` returns
`{success: false, error: "Failed to upload to Airtable"}`; every exception
of the storage calls is absorbed, so the embedding is total and no
exception escapes. -/
theorem C5_all_batches_rejected (env : Env) (qs : List Question)
    (hq : parse_questions_with_ai env.chat env.jsonParse
        (extract_text_from_pdf env.pages env.ocr).text = qs)
    (htext : pyStrip (extract_text_from_pdf env.pages env.ocr).text ≠ "")
    (hqs : qs ≠ [])
    (hfail : ∀ k, k < numBatches qs → env.store k = StoreResp.err) :
    (process_pdf env).result =
      PipelineResult.failure "Failed to upload to Airtable" := by
  have hret : (upload_to_airtable env.store qs).returns = false := by
    unfold upload_to_airtable
    simp only [decide_eq_false_iff_not, Nat.not_lt, Nat.le_zero]
    apply List.sum_eq_zero
    intro x hx
    obtain ⟨k, hk, rfl⟩ := List.mem_map.mp hx
    rw [hfail k (List.mem_range.mp hk)]
    rfl
  simp [process_pdf, htext, hq, hqs, hret]

/-- Environment for the C5 witness: one question parsed, a storage API that
rejects the single batch. -/
def envC5 : Env :=
  ⟨[some "Solve x + 1 = 2."], Except.ok [],
    fun _ => Except.ok "parsed fine",
    fun _ => some [⟨some "Solve x + 1 = 2.", none, none, none, none⟩],
    fun _ => StoreResp.err⟩

/-- Witness for C5 at a concrete run. -/
theorem C5_all_batches_rejected_witness :
    (process_pdf envC5).result =
      PipelineResult.failure "Failed to upload to Airtable" :=
  C5_all_batches_rejected envC5 [⟨"Solve x + 1 = 2.", "", "", "", ""⟩]
    (by decide) (by decide) (by decide) (by decide)

/-- Environment for the C9 counterexample: the model returns a JSON array
with one item whose `question_text` is the empty string; the storage API
accepts the batch. -/
def envC9 : Env :=
  ⟨[some "Find x."], Except.ok [],
    fun _ => Except.ok "model reply",
    fun _ => some [⟨some "", some "42", none, none, none⟩],
    fun _ => StoreResp.ok 1⟩

/-- C9 counterexample: a pipeline run POSTs to the storage API a batch
containing a record whose `question_text` is empty — nothing in the code
filters empty question texts — refuting the claimed invariant. -/
theorem C9_counterexample :
    (process_pdf envC9).storeRequests =
        [[⟨"", "42", "", "", "", "PDF Upload", "2024-01-01"⟩]] ∧
      (process_pdf envC9).result = PipelineResult.success 1
        "Successfully uploaded 1 questions to Airtable" := by
  refine ⟨by decide, rfl⟩

/-- C9 amended: a Question whose `question_text` key is absent from its AI
response item is never uploaded — the `TypeError` aborts parsing wholesale
and the run posts nothing to the storage API; a present-but-empty
`question_text`, however, is uploaded as-is (see the counterexample). -/
theorem C9_missing_key_blocks_upload (env : Env) (s : String)
    (items : List QuestionItem)
    (hchat : env.chat ("Extract math questions from this text:\n\n" ++
        (extract_text_from_pdf env.pages env.ocr).text) = Except.ok s)
    (hjson : env.jsonParse s = some items)
    (hmiss : ∃ d ∈ items, d.question_text = none) :
    (process_pdf env).storeRequests = [] := by
  obtain ⟨d, hd, hdnone⟩ := hmiss
  have hparse : parse_questions_with_ai env.chat env.jsonParse
      (extract_text_from_pdf env.pages env.ocr).text = [] := by
    simp [parse_questions_with_ai, hchat, hjson,
      questionsFromItems_eq_none items d hd (by simp [mkQuestion, hdnone])]
  by_cases htext : pyStrip (extract_text_from_pdf env.pages env.ocr).text = ""
  · simp [process_pdf, htext]
  · simp [process_pdf, htext, hparse]

/-- Environment for the C9 witness: the model item lacks `question_text`. -/
def envC9m : Env :=
  ⟨[some "Exercise 1."], Except.ok [],
    fun _ => Except.ok "keyless reply",
    fun _ => some [⟨none, some "an answer", none, none, none⟩],
    fun _ => StoreResp.ok 5⟩

/-- Witness for the amended C9 at a concrete run. -/
theorem C9_missing_key_blocks_upload_witness :
    (process_pdf envC9m).storeRequests = [] :=
  C9_missing_key_blocks_upload envC9m "keyless reply"
    [⟨none, some "an answer", none, none, none⟩] rfl rfl (by decide)

/-- A concrete list of 23 questions for the C1 theorems. -/
def qs23 : List Question := List.replicate 23 ⟨"Q", "", "", "", ""⟩

/-- C1 counterexample: `upload_to_airtable` returns a boolean
(`total_uploaded > 0`), not the count 23: when the storage API accepts all
three batches the counter reaches 23, when it accepts only the first batch
the counter reaches 10, and the returned value is the same in both runs, so
the return value is not the total count of records whose batches
succeeded. -/
theorem C1_counterexample :
    (upload_to_airtable
          (fun k => StoreResp.ok (batchRecords qs23 k).length) qs23).totalUploaded
        = 23 ∧
      (upload_to_airtable
          (fun k => if k = 0 then StoreResp.ok 10 else StoreResp.err)
          qs23).totalUploaded = 10 ∧
      (upload_to_airtable
          (fun k => StoreResp.ok (batchRecords qs23 k).length) qs23).returns =
        (upload_to_airtable
          (fun k => if k = 0 then StoreResp.ok 10 else StoreResp.err)
          qs23).returns := by
  refine ⟨by decide, by decide, by decide⟩

/-- C1 amended: for every list of 23 question records, `upload_to_airtable`
partitions it into exactly 3 batches of sizes 10, 10 and 3 and issues one
storage request per batch; if the storage API accepts all of them the
internal `total_uploaded` counter is 23, and the operation returns the
boolean `true` (`total_uploaded > 0`), not the count 23. -/
theorem C1_batches_of_23 (qs : List Question) (store : Nat → StoreResp)
    (hlen : qs.length = 23)
    (hacc : ∀ k, k < numBatches qs →
      store k = StoreResp.ok (batchRecords qs k).length) :
    (upload_to_airtable store qs).requests.map List.length = [10, 10, 3] ∧
      (upload_to_airtable store qs).totalUploaded = 23 ∧
      (upload_to_airtable store qs).returns = true := by
  have hm : numBatches qs = 3 := by
    unfold numBatches
    rw [hlen]
  have hblen : ∀ k, (batchRecords qs k).length = min 10 (23 - 10 * k) := by
    intro k
    rw [batchRecords_length, hlen]
  have h0 := hacc 0 (by rw [hm]; norm_num)
  have h1 := hacc 1 (by rw [hm]; norm_num)
  have h2 := hacc 2 (by rw [hm]; norm_num)
  rw [hblen] at h0 h1 h2
  have htot : (upload_to_airtable store qs).totalUploaded = 23 := by
    unfold upload_to_airtable
    simp only [hm]
    rw [List.range_succ, List.range_succ, List.range_succ, List.range_zero]
    simp [h0, h1, h2, respCount]
  refine ⟨?_, htot, ?_⟩
  · unfold upload_to_airtable
    simp only [hm]
    rw [List.range_succ, List.range_succ, List.range_succ, List.range_zero]
    simp [hblen]
  · unfold upload_to_airtable at htot ⊢
    simp only at htot ⊢
    rw [htot]
    decide

/-- Witness for the amended C1 at a concrete run: 23 identical questions
and a storage API that echoes every batch. -/
theorem C1_batches_of_23_witness :
    (upload_to_airtable
          (fun k => StoreResp.ok (batchRecords qs23 k).length)
          qs23).requests.map List.length = [10, 10, 3] ∧
      (upload_to_airtable
          (fun k => StoreResp.ok (batchRecords qs23 k).length)
          qs23).totalUploaded = 23 ∧
      (upload_to_airtable
          (fun k => StoreResp.ok (batchRecords qs23 k).length)
          qs23).returns = true :=
  C1_batches_of_23 qs23 (fun k => StoreResp.ok (batchRecords qs23 k).length)
    (by decide) (fun _ _ => rfl)

/-- C10: on every run in which the extracted text is non-empty, the parsed
question list is non-empty, every storage response either fails or echoes
its full batch, and at least one batch succeeds while at least one batch
fails, `process_pdf` reports success with `questions_count` and the count
in the message equal to the number of parsed questions, while the
`total_uploaded` counter — the number of records actually accepted — is
strictly smaller. -/
theorem C10_success_overcounts (env : Env) (qs : List Question)
    (hq : parse_questions_with_ai env.chat env.jsonParse
        (extract_text_from_pdf env.pages env.ocr).text = qs)
    (htext : pyStrip (extract_text_from_pdf env.pages env.ocr).text ≠ "")
    (hqs : qs ≠ [])
    (hresp : ∀ k, k < numBatches qs → env.store k = StoreResp.err ∨
        env.store k = StoreResp.ok (batchRecords qs k).length)
    (hsucc : ∃ k, k < numBatches qs ∧
        env.store k = StoreResp.ok (batchRecords qs k).length)
    (hfail : ∃ k, k < numBatches qs ∧ env.store k = StoreResp.err) :
    (process_pdf env).result = PipelineResult.success qs.length
        ("Successfully uploaded " ++ toString qs.length ++
          " questions to Airtable") ∧
      (upload_to_airtable env.store qs).totalUploaded < qs.length := by
  have hnpos : 0 < qs.length := List.length_pos.mpr hqs
  have htotal_def : (upload_to_airtable env.store qs).totalUploaded =
      ∑ k in Finset.range (numBatches qs), respCount (env.store k) := by
    unfold upload_to_airtable
    simp only
    exact listSum_eq_finsetSum _ _
  have hlt : (∑ k in Finset.range (numBatches qs), respCount (env.store k))
      < qs.length := by
    have hle : ∀ k ∈ Finset.range (numBatches qs),
        respCount (env.store k) ≤ min 10 (qs.length - 10 * k) := by
      intro k hk
      rcases hresp k (Finset.mem_range.mp hk) with h | h
      · rw [h]
        exact Nat.zero_le _
      · rw [h]
        rw [respCount, batchRecords_length]
    have hstrict : ∃ k ∈ Finset.range (numBatches qs),
        respCount (env.store k) < min 10 (qs.length - 10 * k) := by
      obtain ⟨k, hk, hkerr⟩ := hfail
      have hkm : k < (qs.length + 9) / 10 := by
        simpa [numBatches] using hk
      refine ⟨k, Finset.mem_range.mpr hk, ?_⟩
      rw [hkerr, respCount]
      omega
    calc (∑ k in Finset.range (numBatches qs), respCount (env.store k))
        < ∑ k in Finset.range (numBatches qs), min 10 (qs.length - 10 * k) :=
          Finset.sum_lt_sum hle hstrict
      _ = qs.length := by
          have h := sum_min_batch_sizes qs.length
          simpa [numBatches] using h
  have hpos : 0 < ∑ k in Finset.range (numBatches qs),
      respCount (env.store k) := by
    obtain ⟨k, hk, hok⟩ := hsucc
    have hkm : k < (qs.length + 9) / 10 := by
      simpa [numBatches] using hk
    have hterm : 1 ≤ respCount (env.store k) := by
      rw [hok, respCount, batchRecords_length]
      omega
    have hgen : ∀ (g : Nat → Nat) (t : Finset Nat) (j : Nat), j ∈ t →
        g j ≤ ∑ i in t, g i :=
      fun g t j hj => Finset.single_le_sum (fun i _ => Nat.zero_le (g i)) hj
    calc 0 < respCount (env.store k) := hterm
      _ ≤ ∑ j in Finset.range (numBatches qs), respCount (env.store j) :=
          hgen (fun j => respCount (env.store j)) _ k (Finset.mem_range.mpr hk)
  have hret : (upload_to_airtable env.store qs).returns = true := by
    unfold upload_to_airtable
    simp only [decide_eq_true_eq]
    rw [listSum_eq_finsetSum]
    exact hpos
  constructor
  · simp [process_pdf, htext, hq, hqs, hret]
  · rw [htotal_def]
    exact hlt

/-- Environment for the C10 witness: 11 questions parsed, the first batch
rejected, the second accepted. -/
def envC10 : Env :=
  ⟨[some "Problem set."], Except.ok [],
    fun _ => Except.ok "eleven items",
    fun _ => some (List.replicate 11 ⟨some "q", none, none, none, none⟩),
    fun k => if k = 0 then StoreResp.err else StoreResp.ok 1⟩

/-- Witness for C10 at a concrete run: 11 parsed questions, 1 record
accepted, success reported with count 11. -/
theorem C10_success_overcounts_witness :
    (process_pdf envC10).result = PipelineResult.success
        (List.replicate 11 (Question.mk "q" "" "" "" "")).length
        ("Successfully uploaded " ++
          toString (List.replicate 11 (Question.mk "q" "" "" "" "")).length ++
          " questions to Airtable") ∧
      (upload_to_airtable envC10.store
          (List.replicate 11 (Question.mk "q" "" "" "" ""))).totalUploaded <
        (List.replicate 11 (Question.mk "q" "" "" "" "")).length :=
  C10_success_overcounts envC10 (List.replicate 11 ⟨"q", "", "", "", ""⟩)
    (by decide) (by decide) (by decide) (by decide)
    ⟨1, by decide⟩ ⟨0, by decide⟩
